import Mathlib

/-!
Verification of the First_IoT gateway and server against its specification.

The definitions below are shallow embeddings of the Python sources:
  Gateway/vps_main.py        (crc32, SecurityManager, Database, Gateway)
  Gateway/src/database.py    (Database._save_json, authenticate_rfid, authenticate_passkey)
  Gateway/src/lora_handler.py (LoRaHandler._crc32, _parse_message CRC check)
  Server_Python/api/services/offline_detector.py (OfflineDetector)

Machine integers are modelled as Nat with explicit reduction modulo 2^32
where the Python code masks with 0xFFFFFFFF; timestamps are Int seconds;
Python dicts keyed by strings are association lists in insertion order.
-/

/-! ## Python dict operations (insertion-ordered association lists) -/
/-- Lookup of a key in a Python dict, modelled on an association list. -/
def getKey {β : Type} (k : String) : List (String × β) → Option β
  | [] => none
  | (k', v) :: rest => if k' = k then some v else getKey k rest

/-- Python dict assignment d[k] = v: replaces in place, appends if new. -/
def setKey {β : Type} (k : String) (v : β) : List (String × β) → List (String × β)
  | [] => [(k, v)]
  | (k', v') :: rest => if k' = k then (k, v) :: rest else (k', v') :: setKey k v rest

/-- Python dict deletion (del d[k] / d.pop(k, None)). -/
def delKey {β : Type} (k : String) : List (String × β) → List (String × β)
  | [] => []
  | (k', v') :: rest => if k' = k then rest else (k', v') :: delKey k rest

/-! ## CRC-32 (Gateway/vps_main.py `crc32`, Gateway/src/lora_handler.py `LoRaHandler._crc32`)

Python:
  crc = init
  for b in data:
      crc ^= (b << 24)
      for _ in range(8):
          if crc & 0x80000000: crc = (crc << 1) ^ poly
          else: crc <<= 1
          crc &= 0xFFFFFFFF
  return crc ^ xor_out
with poly=0x04C11DB7, init=0xFFFFFFFF, xor_out=0xFFFFFFFF.
`crc & 0x80000000` tests bit 31 and `crc &= 0xFFFFFFFF` is reduction mod 2^32. -/
def CRC_POLY : Nat := 0x04C11DB7

/-- One inner-loop iteration of the CRC: MSB-first shift with conditional xor. -/
def crcStepBit (crc : Nat) : Nat :=
  if crc.testBit 31 then ((2 * crc) ^^^ CRC_POLY) % 2 ^ 32 else (2 * crc) % 2 ^ 32

/-- Processing of one input byte: xor into the top byte, then 8 shift steps. -/
def crcStepByte (crc b : Nat) : Nat :=
  crcStepBit^[8] (crc ^^^ (b <<< 24))

/-- The full CRC-32 of vps_main.py / lora_handler.py at the default parameters. -/
def crc32 (data : List Nat) : Nat :=
  (data.foldl crcStepByte 0xFFFFFFFF) ^^^ 0xFFFFFFFF

/-- The CRC acceptance check of LoRaHandler._parse_message:
the frame is rejected iff the recomputed CRC differs from the received one. -/
def crcValid (body : List Nat) (crc_received : Nat) : Bool :=
  decide (crc32 body = crc_received)

/-! ## SecurityManager (Gateway/vps_main.py lines 139-185)

State: failed_attempts and lockout_until are Python dicts keyed by device id;
used_nonces is collections.deque with maxlen = nonce_cache_size.
datetime.now() / time.time() are passed in explicitly as the `now` argument. -/
/-- The security section of CONFIG in vps_main.py. -/
structure SecurityConfig where
  max_failed_attempts : Nat
  lockout_duration_seconds : Int
  timestamp_tolerance_seconds : Int
  nonce_cache_size : Nat
deriving DecidableEq

/-- CONFIG['security'] defaults of vps_main.py. -/
def defaultSecurityConfig : SecurityConfig :=
  { max_failed_attempts := 5
    lockout_duration_seconds := 300
    timestamp_tolerance_seconds := 300
    nonce_cache_size := 1000 }

structure SecurityManager where
  config : SecurityConfig
  failed_attempts : List (String × Nat)
  lockout_until : List (String × Int)
  used_nonces : List Int
deriving DecidableEq

/-- SecurityManager.__init__: empty dicts, empty deque. -/
def mkSecurityManager (cfg : SecurityConfig) : SecurityManager :=
  { config := cfg, failed_attempts := [], lockout_until := [], used_nonces := [] }

/-- collections.deque(maxlen=m).append: appends at the right, evicting from
the left when the deque already holds m elements. -/
def dequeAppend {α : Type} (maxlen : Nat) (q : List α) (x : α) : List α :=
  (q ++ [x]).drop ((q ++ [x]).length - maxlen)

/-- SecurityManager.is_locked_out: clears an expired lockout (and zeroes the
failure counter) as a side effect, returning the mutated manager. -/
def is_locked_out (now : Int) (device_id : String) (sm : SecurityManager) :
    Bool × SecurityManager :=
  match getKey device_id sm.lockout_until with
  | some t =>
    if now < t then (true, sm)
    else (false,
      { sm with lockout_until := delKey device_id sm.lockout_until
                failed_attempts := setKey device_id 0 sm.failed_attempts })
  | none => (false, sm)

/-- SecurityManager.record_failed_attempt: returns whether lockout triggered. -/
def record_failed_attempt (now : Int) (device_id : String) (sm : SecurityManager) :
    Bool × SecurityManager :=
  let cnt := (getKey device_id sm.failed_attempts).getD 0 + 1
  let fa := setKey device_id cnt sm.failed_attempts
  if sm.config.max_failed_attempts ≤ cnt then
    (true, { sm with failed_attempts := fa
                     lockout_until := setKey device_id
                       (now + sm.config.lockout_duration_seconds) sm.lockout_until })
  else (false, { sm with failed_attempts := fa })

/-- SecurityManager.record_success: pops both dict entries. -/
def record_success (device_id : String) (sm : SecurityManager) : SecurityManager :=
  { sm with failed_attempts := delKey device_id sm.failed_attempts
            lockout_until := delKey device_id sm.lockout_until }

/-- SecurityManager.validate_timestamp: abs(now - ts) <= tolerance. -/
def validate_timestamp (now ts : Int) (sm : SecurityManager) : Bool :=
  decide (((now - ts).natAbs : Int) ≤ sm.config.timestamp_tolerance_seconds)

/-- SecurityManager.validate_nonce: false on a cached nonce, otherwise true
after appending the nonce to the bounded deque. -/
def validate_nonce (nonce : Int) (sm : SecurityManager) : Bool × SecurityManager :=
  if nonce ∈ sm.used_nonces then (false, sm)
  else (true, { sm with used_nonces := dequeAppend sm.config.nonce_cache_size sm.used_nonces nonce })

/-- A sequence of validate_nonce calls, returning the results in order. -/
def runNonces (sm : SecurityManager) : List Int → List Bool × SecurityManager
  | [] => ([], sm)
  | n :: rest =>
    let r := validate_nonce n sm
    let rs := runNonces r.2 rest
    (r.1 :: rs.1, rs.2)

/-! ## Gateway.handle_request (vps_main.py lines 518-587)

The MQTT payload is a parsed JSON object; only its 'body' and 'hmac' string
fields matter to the pipeline. hmac.new(...).hexdigest() comparison and
json.loads of the body are external primitives, passed in as the functions
hmacOk (verify_hmac with the configured key) and parse (json.loads restricted
to the request-body fields the handler reads: cmd, pw, ts, nonce). -/
structure RequestBody where
  cmd : Option String
  pw : Option String
  ts : Option Int
  nonce : Option Int
deriving DecidableEq

structure RequestPayload where
  body : Option String
  hmac : Option String
deriving DecidableEq

inductive ReqOutcome
  | lockResp (reason : String)
  | dispatched (body : RequestBody)
  | ignored
deriving DecidableEq

/-- Gateway.handle_request, with the external primitives abstracted:
the chain of early returns of the Python code, each sending a local
LOCK response with the corresponding reason. -/
def handle_request (hmacOk : String → String → Bool) (parse : String → Option RequestBody)
    (now : Int) (device_id : String) (p : RequestPayload) (sm : SecurityManager) :
    ReqOutcome × SecurityManager :=
  let lk := is_locked_out now device_id sm
  if lk.1 then (.lockResp "locked_out", lk.2)
  else
    match p.hmac, p.body with
    | some hm, some bd =>
      if ¬ hmacOk bd hm then
        (.lockResp "invalid_signature", (record_failed_attempt now device_id lk.2).2)
      else
        match parse bd with
        | none => (.lockResp "invalid_json", (record_failed_attempt now device_id lk.2).2)
        | some body =>
          if ¬ validate_timestamp now (body.ts.getD 0) lk.2 then
            (.lockResp "invalid_timestamp", (record_failed_attempt now device_id lk.2).2)
          else
            let vn := validate_nonce (body.nonce.getD 0) lk.2
            if ¬ vn.1 then
              (.lockResp "replay_attack", (record_failed_attempt now device_id lk.2).2)
            else if body.cmd = some "unlock_request" then (.dispatched body, vn.2)
            else (.ignored, vn.2)
    | _, _ => (.lockResp "invalid_format", (record_failed_attempt now device_id lk.2).2)

/-! ## Credential store and authentication
(Gateway/vps_main.py Database.authenticate_rfid / authenticate_passkey,
Gateway/src/database.py Database.authenticate_rfid / authenticate_passkey)

Stored entries carry the data-model fields relevant to authentication;
expires_at is part of the stored record (gen_hash_password.py writes it)
whether or not the authentication code reads it. Both implementations
compute the same verdict: entry found and entry.active; the
src/database.py variant additionally mutates last_used, which does not
affect the returned verdict and is not modelled. -/
structure RfidCard where
  active : Bool
  expires_at : Option Int
deriving DecidableEq

structure PasswordEntry where
  hash : String
  active : Bool
  expires_at : Option Int
deriving DecidableEq

/-- Database.authenticate_rfid: bool(card and card.get('active', False)). -/
def authenticate_rfid (rfid_cards : List (String × RfidCard)) (uid : String) : Bool :=
  match getKey uid rfid_cards with
  | some card => card.active
  | none => false

/-- Database.authenticate_passkey: first password entry whose hash matches
and which is active; returns (is_valid, password_id). -/
def authenticate_passkey (passwords : List (String × PasswordEntry))
    (password_hash : String) : Bool × Option String :=
  match passwords with
  | [] => (false, none)
  | (pwd_id, pwd_data) :: rest =>
    if pwd_data.hash = password_hash ∧ pwd_data.active then (true, some pwd_id)
    else authenticate_passkey rest password_hash

/-! ## Database.check_access_rules (vps_main.py lines 283-307)

Times of day are modelled as Nat (seconds since midnight); a rule whose
start_time or end_time cannot be parsed by strptime (or is missing) is
modelled with none, which in the Python code raises and is caught by the
surrounding except returning (True, None). -/
structure AccessRule where
  enabled : Bool
  start_time : Option Nat
  end_time : Option Nat
  allowed_methods : List String
  restricted_users : List String
deriving DecidableEq

/-- The window test: start <= t <= end when start <= end, otherwise the
midnight-wrapping disjunction t >= start or t <= end. -/
def ruleInRange (s e t : Nat) : Bool :=
  if s ≤ e then decide (s ≤ t) && decide (t ≤ e) else decide (t ≥ s) || decide (t ≤ e)

/-- Python `user_id in restricted_users` where user_id may be None. -/
def userRestricted (user_id : Option String) (restricted : List String) : Bool :=
  match user_id with
  | some u => restricted.contains u
  | none => false

/-- Database.check_access_rules: iterate the rules dict in insertion order;
skip disabled rules; the first enabled rule whose window contains the current
time decides; a parse failure raises, caught as (True, None). -/
def check_access_rules (rules : List (String × AccessRule)) (current_time : Nat)
    (method : String) (user_id : Option String) : Bool × Option String :=
  match rules with
  | [] => (true, none)
  | (rule_name, rule_config) :: rest =>
    if ¬ rule_config.enabled then check_access_rules rest current_time method user_id
    else
      match rule_config.start_time, rule_config.end_time with
      | some s, some e =>
        if ruleInRange s e current_time then
          if ¬ rule_config.allowed_methods.contains method then
            (false, some ("method_not_allowed_" ++ rule_name))
          else if userRestricted user_id rule_config.restricted_users then
            (false, some ("user_restricted_" ++ rule_name))
          else (true, none)
        else check_access_rules rest current_time method user_id
      | _, _ => (true, none)

/-! ## Database._save_json file-system traces

Two distinct implementations exist. Their success paths are modelled as the
sequence of file-system operations they issue:
  Gateway/src/database.py: json.dump to name.tmp, then Path.replace of the
  tmp file over the target (atomic rename, no backup);
  Gateway/vps_main.py: os.replace of the existing target to name.backup
  (skipped when the target does not exist), then open(name, 'w') + json.dump
  directly into the target (in-place write, no tmp file). -/
inductive FsOp
  | write (target : String)
  | rename (src dst : String)
deriving DecidableEq

/-- Success-path trace of Database._save_json in Gateway/src/database.py. -/
def save_json_ops_db (filename : String) : List FsOp :=
  [FsOp.write (filename ++ ".tmp"), FsOp.rename (filename ++ ".tmp") filename]

/-- Success-path trace of Database._save_json in Gateway/vps_main.py. -/
def save_json_ops_vps (filename : String) (target_exists : Bool) : List FsOp :=
  (if target_exists then [FsOp.rename filename (filename ++ ".backup")] else [])
    ++ [FsOp.write filename]

/-! ## Store-and-forward buffer (Gateway.forward_to_vps / flush_buffer,
vps_main.py lines 688-739)

self.buffer is collections.deque(maxlen=CONFIG['buffer_max_size']) of
(topic, payload) records; publish_to_vps is modelled as appending to a
publish trace. The topic comes from CONFIG['topics']['vps_' + msg_type]
formatted with the device id, abstracted as the function topicFor. -/
structure VpsPayload where
  gateway_id : String
  device_id : String
  data : String
  timestamp : Int
  flushed : Bool
deriving DecidableEq

structure GatewayLink where
  vps_connected : Bool
  buffer_max_size : Nat
  buffer : List (String × VpsPayload)
  published : List (String × VpsPayload)
deriving DecidableEq

/-- Gateway.forward_to_vps: build the VPS payload and either publish it at
once (link up) or append it to the bounded deque (link down). -/
def forward_to_vps (topicFor : String → String → String) (st : GatewayLink)
    (device_id msg_type data : String) (now : Int) : GatewayLink :=
  let vps_payload : VpsPayload :=
    { gateway_id := "Gateway1", device_id := device_id, data := data
      timestamp := now, flushed := false }
  let topic := topicFor msg_type device_id
  if st.vps_connected then { st with published := st.published ++ [(topic, vps_payload)] }
  else { st with buffer := dequeAppend st.buffer_max_size st.buffer (topic, vps_payload) }

/-- The while-loop body of Gateway.flush_buffer: popleft each buffered
message, set its _flushed key, publish it. -/
def flushLoop : List (String × VpsPayload) → List (String × VpsPayload)
  | [] => []
  | (topic, pl) :: rest => (topic, { pl with flushed := true }) :: flushLoop rest

/-- Gateway.flush_buffer on its normal path (no publish exception). -/
def flush_buffer (st : GatewayLink) : GatewayLink :=
  { st with buffer := [], published := st.published ++ flushLoop st.buffer }

/-! ## OfflineDetector (Server_Python/api/services/offline_detector.py)

The devices and gateways tables and the system_logs table are lists of rows;
the SQL UPDATE ... RETURNING statements become a filter (the returned rows)
plus a map (the update). NOW() is the explicit argument now. -/
structure GatewayRow where
  gateway_id : String
  user_id : String
  gw_name : String
  status : String
  last_seen : Option Int
deriving DecidableEq

structure DeviceRow where
  device_id : String
  user_id : String
  device_type : String
  gateway_id : String
  status : String
  last_seen : Option Int
deriving DecidableEq

structure SystemLog where
  log_type : String
  event : String
  gateway_id : Option String
  device_id : Option String
  reason : Option String
  detection_method : String
deriving DecidableEq

structure ServerState where
  gateways : List GatewayRow
  devices : List DeviceRow
  system_logs : List SystemLog
deriving DecidableEq

/-- WHERE clause of the gateway sweep: status = 'online' AND
(last_seen IS NULL OR last_seen < cutoff). -/
def gatewayStale (cutoff : Int) (g : GatewayRow) : Bool :=
  g.status == "online" &&
    (match g.last_seen with
     | none => true
     | some t => decide (t < cutoff))

/-- WHERE clause of the standalone device sweep. -/
def deviceStale (cutoff : Int) (d : DeviceRow) : Bool :=
  d.status == "online" &&
    (match d.last_seen with
     | none => true
     | some t => decide (t < cutoff))

/-- WHERE clause of the cascade UPDATE: gateway_id = ANY(ids) AND
status != 'offline'. -/
def cascadeHit (gateway_ids : List String) (d : DeviceRow) : Bool :=
  gateway_ids.contains d.gateway_id && d.status != "offline"

/-- OfflineDetector.check_offline_gateways: offline the stale gateways,
log each, then cascade to every device of a just-offlined gateway that is
not already offline, logging each cascaded device with metadata reason
'gateway_offline'. -/
def check_offline_gateways (now gateway_timeout : Int) (st : ServerState) : ServerState :=
  let cutoff := now - gateway_timeout
  let offline_gateways := st.gateways.filter (gatewayStale cutoff)
  let gateways' := st.gateways.map
    (fun g => if gatewayStale cutoff g then { g with status := "offline" } else g)
  if offline_gateways.isEmpty then { st with gateways := gateways' }
  else
    let gateway_ids := offline_gateways.map (fun g => g.gateway_id)
    let glogs := offline_gateways.map (fun g =>
      { log_type := "system_event", event := "gateway_offline"
        gateway_id := some g.gateway_id, device_id := none, reason := none
        detection_method := "periodic_check" : SystemLog })
    let cascaded := st.devices.filter (cascadeHit gateway_ids)
    let devices' := st.devices.map
      (fun d => if cascadeHit gateway_ids d then { d with status := "offline" } else d)
    let dlogs := cascaded.map (fun d =>
      { log_type := "device_event", event := "device_offline"
        gateway_id := none, device_id := some d.device_id
        reason := some "gateway_offline", detection_method := "cascade" : SystemLog })
    { gateways := gateways', devices := devices'
      system_logs := st.system_logs ++ glogs ++ dlogs }

/-- OfflineDetector.check_offline_devices: offline the stale standalone
devices and log each with detection_method 'periodic_check'. -/
def check_offline_devices (now device_timeout : Int) (st : ServerState) : ServerState :=
  let cutoff := now - device_timeout
  let offline_devices := st.devices.filter (deviceStale cutoff)
  let devices' := st.devices.map
    (fun d => if deviceStale cutoff d then { d with status := "offline" } else d)
  if offline_devices.isEmpty then { st with devices := devices' }
  else
    let dlogs := offline_devices.map (fun d =>
      { log_type := "device_event", event := "device_offline"
        gateway_id := some d.gateway_id, device_id := some d.device_id
        reason := none, detection_method := "periodic_check" : SystemLog })
    { st with devices := devices', system_logs := st.system_logs ++ dlogs }

/-- One iteration of OfflineDetector._detection_loop: the gateway sweep
(including its cascade) runs first, then the standalone device sweep. -/
def detection_tick (now gateway_timeout device_timeout : Int) (st : ServerState) : ServerState :=
  check_offline_devices now device_timeout (check_offline_gateways now gateway_timeout st)

/-- Spec-side cascade for the authentication pipeline, following the order
and reasons stated in the specification: lockout, presence of both fields,
HMAC, JSON parse, timestamp, nonce; the first failing check yields its
reason, and none is skipped. -/
def specFirstFailure (locked fmt_bad hmac_bad json_bad ts_bad nonce_bad : Bool) :
    Option String :=
  if locked then some "locked_out"
  else if fmt_bad then some "invalid_format"
  else if hmac_bad then some "invalid_signature"
  else if json_bad then some "invalid_json"
  else if ts_bad then some "invalid_timestamp"
  else if nonce_bad then some "replay_attack"
  else none

/-- The format check of handle_request: 'hmac' or 'body' missing. -/
def checkFmtBad (p : RequestPayload) : Bool :=
  p.hmac.isNone || p.body.isNone

/-- The HMAC check (meaningful once both fields are present). -/
def checkHmacBad (hmacOk : String → String → Bool) (p : RequestPayload) : Bool :=
  match p.hmac, p.body with
  | some hm, some bd => ! hmacOk bd hm
  | _, _ => false

/-- The JSON-parse check of the body. -/
def checkJsonBad (parse : String → Option RequestBody) (p : RequestPayload) : Bool :=
  match p.body with
  | some bd => (parse bd).isNone
  | none => false

/-- The timestamp check on the parsed body (ts defaulting to 0). -/
def checkTsBad (parse : String → Option RequestBody) (now : Int)
    (p : RequestPayload) (sm : SecurityManager) : Bool :=
  match p.body with
  | some bd =>
    match parse bd with
    | some body => ! validate_timestamp now (body.ts.getD 0) sm
    | none => false
  | none => false

/-- The nonce check on the parsed body (nonce defaulting to 0). -/
def checkNonceBad (parse : String → Option RequestBody)
    (p : RequestPayload) (sm : SecurityManager) : Bool :=
  match p.body with
  | some bd =>
    match parse bd with
    | some body => ! (validate_nonce (body.nonce.getD 0) sm).1
    | none => false
  | none => false

/-- The outcome of the pipeline when every check passes: dispatch to the
passkey handler on cmd = 'unlock_request', otherwise fall through. -/
def passOutcome (parse : String → Option RequestBody) (p : RequestPayload) : ReqOutcome :=
  match p.body with
  | some bd =>
    match parse bd with
    | some body =>
      if body.cmd = some "unlock_request" then .dispatched body else .ignored
    | none => .ignored
  | none => .ignored

/-- A rule that the check_access_rules loop passes over without deciding:
either disabled, or parseable with a window not containing the current time. -/
def ruleSkipped (t : Nat) (q : String × AccessRule) : Prop :=
  q.2.enabled = false
  ∨ ∃ s e, q.2.start_time = some s ∧ q.2.end_time = some e ∧ ruleInRange s e t = false

theorem getKey_setKey_self {β : Type} (k : String) (v : β) (m : List (String × β)) :
    getKey k (setKey k v m) = some v := by
  induction m with
  | nil => simp [setKey, getKey]
  | cons p rest ih =>
    obtain ⟨k', v'⟩ := p
    by_cases h : k' = k
    · simp [setKey, getKey, h]
    · simp [setKey, getKey, h, ih]

theorem setKey_of_getKey_none {β : Type} (k : String) (v : β) (m : List (String × β))
    (h : getKey k m = none) : setKey k v m = m ++ [(k, v)] := by
  induction m with
  | nil => simp [setKey]
  | cons p rest ih =>
    obtain ⟨k', v'⟩ := p
    by_cases hk : k' = k
    · simp [getKey, hk] at h
    · simp [getKey, hk] at h
      simp [setKey, hk, ih h]

theorem delKey_append_self {β : Type} (k : String) (v : β) (m : List (String × β))
    (h : getKey k m = none) : delKey k (m ++ [(k, v)]) = m := by
  induction m with
  | nil => simp [delKey]
  | cons p rest ih =>
    obtain ⟨k', v'⟩ := p
    by_cases hk : k' = k
    · simp [getKey, hk] at h
    · simp [getKey, hk] at h
      simp [delKey, hk, ih h]

theorem getKey_delKey_of_none {β : Type} (k : String) (m : List (String × β))
    (h : getKey k m = none) : getKey k (delKey k m) = none := by
  induction m with
  | nil => simp [delKey, getKey]
  | cons p rest ih =>
    obtain ⟨k', v'⟩ := p
    by_cases hk : k' = k
    · simp [getKey, hk] at h
    · simp [getKey, hk] at h
      simp [delKey, getKey, hk, ih h]

theorem xor_mod_two_pow (a b n : Nat) : (a ^^^ b) % 2 ^ n = a % 2 ^ n ^^^ b % 2 ^ n := by
  apply Nat.eq_of_testBit_eq
  intro i
  simp [Nat.testBit_mod_two_pow, Nat.testBit_xor, Bool.and_xor_distrib_left]

theorem xor_right_cancel' {a b c : Nat} (h : a ^^^ c = b ^^^ c) : a = b := by
  have h2 : a ^^^ c ^^^ c = b ^^^ c ^^^ c := by rw [h]
  simpa [Nat.xor_assoc, Nat.xor_self, Nat.xor_zero] using h2

theorem xor_left_cancel' {a b c : Nat} (h : c ^^^ a = c ^^^ b) : a = b := by
  have h2 : c ^^^ (c ^^^ a) = c ^^^ (c ^^^ b) := by rw [h]
  simpa [← Nat.xor_assoc, Nat.xor_self, Nat.zero_xor] using h2

theorem testBit31_of_ge {x : Nat} (hx : x < 2 ^ 32) :
    x.testBit 31 = decide (2 ^ 31 ≤ x) := by
  rw [Nat.testBit_to_div_mod]
  rcases Nat.lt_or_ge x (2 ^ 31) with h | h
  · have h1 : x / 2 ^ 31 = 0 := Nat.div_eq_of_lt h
    simp [h1]
    omega
  · have h1 : x / 2 ^ 31 = 1 := by omega
    simp [h1]
    omega

theorem crcStepBit_lt (x : Nat) : crcStepBit x < 2 ^ 32 := by
  unfold crcStepBit
  split <;> exact Nat.mod_lt _ (by norm_num)

theorem testBit_zero_double_mod (x : Nat) : ((2 * x) % 2 ^ 32).testBit 0 = false := by
  rw [Nat.testBit_to_div_mod]
  simp only [pow_zero, Nat.div_one, decide_eq_false_iff_not]
  omega

theorem crcStepBit_parity (x : Nat) :
    (crcStepBit x).testBit 0 = x.testBit 31 := by
  unfold crcStepBit
  by_cases h : x.testBit 31
  · rw [if_pos h, xor_mod_two_pow, Nat.testBit_xor, testBit_zero_double_mod]
    have h2 : (CRC_POLY % 2 ^ 32).testBit 0 = true := by decide
    rw [h2, h]
    rfl
  · rw [if_neg h, testBit_zero_double_mod]
    simp only [Bool.not_eq_true] at h
    exact h.symm

theorem crcStepBit_inj {x y : Nat} (hx : x < 2 ^ 32) (hy : y < 2 ^ 32)
    (h : crcStepBit x = crcStepBit y) : x = y := by
  have hp : (crcStepBit x).testBit 0 = (crcStepBit y).testBit 0 := by rw [h]
  rw [crcStepBit_parity, crcStepBit_parity, testBit31_of_ge hx, testBit31_of_ge hy] at hp
  simp only [decide_eq_decide] at hp
  unfold crcStepBit at h
  by_cases hgx : 2 ^ 31 ≤ x
  · have hgy : 2 ^ 31 ≤ y := hp.mp hgx
    have hbx : x.testBit 31 = true := by rw [testBit31_of_ge hx]; simpa using hgx
    have hby : y.testBit 31 = true := by rw [testBit31_of_ge hy]; simpa using hgy
    rw [if_pos hbx, if_pos hby, xor_mod_two_pow, xor_mod_two_pow] at h
    have h2 : (2 * x) % 2 ^ 32 = (2 * y) % 2 ^ 32 := xor_right_cancel' h
    omega
  · have hgy : ¬ 2 ^ 31 ≤ y := fun hc => hgx (hp.mpr hc)
    have hbx : x.testBit 31 = false := by
      rw [testBit31_of_ge hx]; simpa using hgx
    have hby : y.testBit 31 = false := by
      rw [testBit31_of_ge hy]; simpa using hgy
    rw [if_neg (by simp [hbx]), if_neg (by simp [hby])] at h
    omega

theorem crcIter_lt (n : Nat) (x : Nat) (hx : x < 2 ^ 32) : crcStepBit^[n] x < 2 ^ 32 := by
  induction n generalizing x with
  | zero => simpa using hx
  | succ k ih =>
    rw [Function.iterate_succ_apply]
    exact ih _ (crcStepBit_lt x)

theorem crcIter_inj (n : Nat) {x y : Nat} (hx : x < 2 ^ 32) (hy : y < 2 ^ 32)
    (h : crcStepBit^[n] x = crcStepBit^[n] y) : x = y := by
  induction n generalizing x y with
  | zero => simpa using h
  | succ k ih =>
    rw [Function.iterate_succ_apply, Function.iterate_succ_apply] at h
    exact crcStepBit_inj hx hy (ih (crcStepBit_lt x) (crcStepBit_lt y) h)

theorem byte_shift_lt {b : Nat} (hb : b < 256) : b <<< 24 < 2 ^ 32 := by
  rw [Nat.shiftLeft_eq]
  calc b * 2 ^ 24 < 256 * 2 ^ 24 := by
        exact (Nat.mul_lt_mul_right (by norm_num)).mpr hb
    _ = 2 ^ 32 := by norm_num

theorem crcStepByte_lt {crc b : Nat} (hc : crc < 2 ^ 32) (hb : b < 256) :
    crcStepByte crc b < 2 ^ 32 := by
  unfold crcStepByte
  exact crcIter_lt 8 _ (Nat.xor_lt_two_pow hc (byte_shift_lt hb))

theorem crcStepByte_inj_state {x y b : Nat} (hx : x < 2 ^ 32) (hy : y < 2 ^ 32)
    (hb : b < 256) (hne : x ≠ y) : crcStepByte x b ≠ crcStepByte y b := by
  intro h
  unfold crcStepByte at h
  have h2 := crcIter_inj 8 (Nat.xor_lt_two_pow hx (byte_shift_lt hb))
    (Nat.xor_lt_two_pow hy (byte_shift_lt hb)) h
  exact hne (xor_right_cancel' h2)

theorem crcStepByte_inj_byte {crc b b' : Nat} (hc : crc < 2 ^ 32)
    (hb : b < 256) (hb' : b' < 256) (hne : b ≠ b') :
    crcStepByte crc b ≠ crcStepByte crc b' := by
  intro h
  unfold crcStepByte at h
  have h2 := crcIter_inj 8 (Nat.xor_lt_two_pow hc (byte_shift_lt hb))
    (Nat.xor_lt_two_pow hc (byte_shift_lt hb')) h
  have h3 : b <<< 24 = b' <<< 24 := xor_left_cancel' h2
  rw [Nat.shiftLeft_eq, Nat.shiftLeft_eq] at h3
  exact hne (Nat.eq_of_mul_eq_mul_right (by norm_num) h3)

theorem crcFold_lt (l : List Nat) (x : Nat) (hx : x < 2 ^ 32)
    (hl : ∀ b ∈ l, b < 256) : l.foldl crcStepByte x < 2 ^ 32 := by
  induction l generalizing x with
  | nil => simpa using hx
  | cons b rest ih =>
    simp only [List.foldl_cons]
    exact ih _ (crcStepByte_lt hx (hl b (by simp))) (fun c hc => hl c (by simp [hc]))

theorem crcFold_preserves_ne {l : List Nat} {x y : Nat} (hx : x < 2 ^ 32) (hy : y < 2 ^ 32)
    (hl : ∀ b ∈ l, b < 256) (hne : x ≠ y) :
    l.foldl crcStepByte x ≠ l.foldl crcStepByte y := by
  induction l generalizing x y with
  | nil => simpa using hne
  | cons b rest ih =>
    simp only [List.foldl_cons]
    have hb : b < 256 := hl b (by simp)
    exact ih (crcStepByte_lt hx hb) (crcStepByte_lt hy hb)
      (fun c hc => hl c (by simp [hc])) (crcStepByte_inj_state hx hy hb hne)

theorem dequeAppend_of_lt {α : Type} (maxlen : Nat) (q : List α) (x : α)
    (h : q.length < maxlen) : dequeAppend maxlen q x = q ++ [x] := by
  unfold dequeAppend
  have h2 : (q ++ [x]).length - maxlen = 0 := by simp; omega
  rw [h2, List.drop_zero]

theorem dequeAppend_of_full {α : Type} (maxlen : Nat) (q : List α) (x : α)
    (h : q.length = maxlen) (h0 : 0 < maxlen) : dequeAppend maxlen q x = q.tail ++ [x] := by
  unfold dequeAppend
  have h2 : (q ++ [x]).length - maxlen = 1 := by simp; omega
  rw [h2]
  rcases q with - | ⟨a, rest⟩
  · simp at h; omega
  · simp

theorem validate_nonce_fst (nonce : Int) (sm : SecurityManager) :
    (validate_nonce nonce sm).1 = decide (nonce ∉ sm.used_nonces) := by
  unfold validate_nonce
  by_cases h : nonce ∈ sm.used_nonces <;> simp [h]

theorem validate_nonce_preserves_config (nonce : Int) (sm : SecurityManager) :
    (validate_nonce nonce sm).2.config = sm.config := by
  unfold validate_nonce
  by_cases h : nonce ∈ sm.used_nonces <;> simp [h]

theorem validate_nonce_mem (nonce : Int) (sm : SecurityManager)
    (hfresh : nonce ∉ sm.used_nonces) (hsize : 0 < sm.config.nonce_cache_size) :
    nonce ∈ (validate_nonce nonce sm).2.used_nonces := by
  unfold validate_nonce
  rw [if_neg hfresh]
  simp only
  unfold dequeAppend
  have hlast : nonce ∈ (sm.used_nonces ++ [nonce]).drop ((sm.used_nonces ++ [nonce]).length - sm.config.nonce_cache_size) := by
    have hlen : (sm.used_nonces ++ [nonce]).length - sm.config.nonce_cache_size < (sm.used_nonces ++ [nonce]).length := by
      simp
      omega
    have := List.getLast_mem (l := (sm.used_nonces ++ [nonce]).drop ((sm.used_nonces ++ [nonce]).length - sm.config.nonce_cache_size))
      (by intro hc
          have := congrArg List.length hc
          simp at this
          omega)
    rw [List.getLast_drop] at this
    rwa [List.getLast_append] at this
  exact hlast

theorem is_locked_out_preserves_nonces (now : Int) (device_id : String) (sm : SecurityManager) :
    (is_locked_out now device_id sm).2.used_nonces = sm.used_nonces := by
  unfold is_locked_out
  rcases h : getKey device_id sm.lockout_until with - | t
  · simp
  · by_cases h2 : now < t <;> simp [h2]

theorem is_locked_out_preserves_config (now : Int) (device_id : String) (sm : SecurityManager) :
    (is_locked_out now device_id sm).2.config = sm.config := by
  unfold is_locked_out
  rcases h : getKey device_id sm.lockout_until with - | t
  · simp
  · by_cases h2 : now < t <;> simp [h2]

theorem record_failed_attempt_preserves_nonces (now : Int) (device_id : String)
    (sm : SecurityManager) :
    (record_failed_attempt now device_id sm).2.used_nonces = sm.used_nonces := by
  unfold record_failed_attempt
  by_cases h : sm.config.max_failed_attempts ≤ (getKey device_id sm.failed_attempts).getD 0 + 1 <;>
    simp [h]

theorem append_tmp_ne (filename suffix : String) (hs : suffix.length ≠ 0) :
    filename ≠ filename ++ suffix := by
  intro hc
  have h1 := congrArg String.length hc
  rw [String.length_append] at h1
  omega

theorem flushLoop_eq_map (l : List (String × VpsPayload)) :
    flushLoop l = l.map (fun m => (m.1, { m.2 with flushed := true })) := by
  induction l with
  | nil => rfl
  | cons p rest ih =>
    obtain ⟨topic, pl⟩ := p
    simp [flushLoop, ih]

theorem dequeAppend_length {α : Type} (maxlen : Nat) (q : List α) (x : α) :
    (dequeAppend maxlen q x).length = min maxlen (q.length + 1) := by
  unfold dequeAppend
  rw [List.length_drop]
  simp
  omega

/-- C5: the frame CRC is the non-reflected CRC-32 with polynomial 0x04C11DB7,
init 0xFFFFFFFF and final xor 0xFFFFFFFF (the crc32 definition above), and for
every CRC-protected frame body and every single-bit flip of any byte of it the
recomputed CRC differs from the CRC of the original body, so the CRC check of
LoRaHandler._parse_message rejects the corrupted frame. -/
theorem crc32_detects_single_bit_flip (pre post : List Nat) (b i : Nat)
    (hb : b < 256) (hi : i < 8)
    (hpre : ∀ x ∈ pre, x < 256) (hpost : ∀ x ∈ post, x < 256) :
    crc32 (pre ++ (b ^^^ 2 ^ i) :: post) ≠ crc32 (pre ++ b :: post)
    ∧ crcValid (pre ++ b :: post) (crc32 (pre ++ b :: post)) = true
    ∧ crcValid (pre ++ (b ^^^ 2 ^ i) :: post) (crc32 (pre ++ b :: post)) = false := by
  have hflip_lt : b ^^^ 2 ^ i < 256 := by
    have h2 : (2 : Nat) ^ i < 2 ^ 8 := Nat.pow_lt_pow_right (by norm_num) hi
    exact Nat.xor_lt_two_pow (n := 8) hb h2
  have hne : b ^^^ 2 ^ i ≠ b := by
    intro hc
    have h0 : b ^^^ 2 ^ i = b ^^^ 0 := by rw [Nat.xor_zero]; exact hc
    have h2 := xor_left_cancel' h0
    have h3 : 0 < (2 : Nat) ^ i := Nat.pos_pow_of_pos i (by norm_num)
    omega
  have hmain : crc32 (pre ++ (b ^^^ 2 ^ i) :: post) ≠ crc32 (pre ++ b :: post) := by
    unfold crc32
    intro hc
    have h1 := xor_right_cancel' hc
    rw [List.foldl_append, List.foldl_append] at h1
    simp only [List.foldl_cons] at h1
    have hs : pre.foldl crcStepByte 0xFFFFFFFF < 2 ^ 32 :=
      crcFold_lt pre _ (by norm_num) hpre
    have hstep : crcStepByte (pre.foldl crcStepByte 0xFFFFFFFF) (b ^^^ 2 ^ i)
        ≠ crcStepByte (pre.foldl crcStepByte 0xFFFFFFFF) b :=
      crcStepByte_inj_byte hs hflip_lt hb hne
    exact crcFold_preserves_ne (crcStepByte_lt hs hflip_lt) (crcStepByte_lt hs hb)
      hpost hstep h1
  refine ⟨hmain, ?_, ?_⟩
  · simp [crcValid]
  · simp [crcValid, hmain]

theorem crc32_detects_single_bit_flip_witness :
    ((52 : Nat) < 256 ∧ (3 : Nat) < 8
      ∧ (∀ x ∈ [18], x < 256) ∧ (∀ x ∈ [86], x < 256))
    ∧ crc32 ([18] ++ (52 ^^^ 2 ^ 3) :: [86]) ≠ crc32 ([18] ++ 52 :: [86]) :=
  ⟨by decide,
   (crc32_detects_single_bit_flip [18] [86] 52 3 (by decide) (by decide)
     (by decide) (by decide)).1⟩

/-- C2 counterexample: at current time 200, an RFID card and a password entry
that are active but expired (expires_at = 100 < 200) still authenticate:
neither Database.authenticate_rfid nor Database.authenticate_passkey reads
expires_at, contradicting the claim that authentication succeeds only when
expires_at is null or in the future. -/
theorem authenticate_ignores_expiry_counterexample :
    authenticate_rfid [("a1b2c3d4", { active := true, expires_at := some 100 })] "a1b2c3d4" = true
    ∧ authenticate_passkey [("pwd_001", { hash := "deadbeef", active := true, expires_at := some 100 })] "deadbeef"
        = (true, some "pwd_001")
    ∧ (100 : Int) < 200 :=
  ⟨rfl, rfl, by norm_num⟩

/-- C2 (amended): password and RFID authentication are decided by the active
flag alone — authenticate_rfid returns true iff the card exists and is
active, and authenticate_passkey matches iff some stored entry has the given
hash and is active; expires_at is never consulted. -/
theorem authenticate_active_only (cards : List (String × RfidCard)) (uid : String)
    (passwords : List (String × PasswordEntry)) (h : String) :
    (authenticate_rfid cards uid = true ↔
      ∃ c, getKey uid cards = some c ∧ c.active = true)
    ∧ ((authenticate_passkey passwords h).1 = true ↔
      ∃ p ∈ passwords, p.2.hash = h ∧ p.2.active = true) := by
  constructor
  · unfold authenticate_rfid
    rcases hg : getKey uid cards with - | c <;> simp [hg]
  · induction passwords with
    | nil => simp [authenticate_passkey]
    | cons p rest ih =>
      obtain ⟨pid, pd⟩ := p
      unfold authenticate_passkey
      by_cases hc : pd.hash = h ∧ pd.active
      · rw [if_pos hc]
        simp only [true_iff]
        exact ⟨(pid, pd), List.mem_cons_self _ _, hc.1, hc.2⟩
      · rw [if_neg hc, ih]
        constructor
        · rintro ⟨q, hq, h1, h2⟩
          exact ⟨q, List.mem_cons_of_mem _ hq, h1, h2⟩
        · rintro ⟨q, hq, h1, h2⟩
          rcases List.mem_cons.mp hq with rfl | hq2
          · exact absurd ⟨h1, h2⟩ hc
          · exact ⟨q, hq2, h1, h2⟩

/-- C8 counterexample: no single save implementation both writes a tmp file
and keeps a backup. The src/database.py save of devices.json performs no
rename to devices.json.backup, and the vps_main.py save performs no write to
devices.json.tmp, so the claimed combined tmp+backup sequence is issued by
neither. -/
theorem save_json_counterexample :
    (∀ op ∈ save_json_ops_db "devices.json",
      op ≠ FsOp.rename "devices.json" ("devices.json" ++ ".backup"))
    ∧ (∀ op ∈ save_json_ops_vps "devices.json" true,
      op ≠ FsOp.write ("devices.json" ++ ".tmp")) := by
  constructor
  · intro op hop
    simp [save_json_ops_db] at hop
    rcases hop with rfl | rfl <;> decide
  · intro op hop
    simp [save_json_ops_vps] at hop
    rcases hop with rfl | rfl <;> decide

/-- C8 (amended): the two save implementations split the claimed behaviour.
The src/database.py save is atomic — it writes the new content to name.tmp
and then renames the tmp file over the target, never writing the target in
place — but keeps no backup; the vps_main.py save is backup-preserving — it
first renames the existing target to name.backup and then writes the new
content directly into the target, using no tmp file. -/
theorem save_json_split_behaviour (filename : String) :
    save_json_ops_db filename
      = [FsOp.write (filename ++ ".tmp"), FsOp.rename (filename ++ ".tmp") filename]
    ∧ FsOp.write filename ∉ save_json_ops_db filename
    ∧ (∀ s, FsOp.rename s (filename ++ ".backup") ∉ save_json_ops_db filename)
    ∧ save_json_ops_vps filename true
      = [FsOp.rename filename (filename ++ ".backup"), FsOp.write filename]
    ∧ save_json_ops_vps filename false = [FsOp.write filename]
    ∧ FsOp.write (filename ++ ".tmp") ∉ save_json_ops_vps filename true := by
  have htmp : filename ≠ filename ++ ".tmp" := append_tmp_ne filename ".tmp" (by decide)
  have htmp2 : filename ++ ".tmp" ≠ filename := fun hc => htmp hc.symm
  have hbk : filename ≠ filename ++ ".backup" := append_tmp_ne filename ".backup" (by decide)
  have hbt : filename ++ ".backup" ≠ filename ++ ".tmp" := by
    intro hc
    have h1 := congrArg String.length hc
    rw [String.length_append, String.length_append] at h1
    have h2 : (".backup" : String).length = 7 := by decide
    have h3 : (".tmp" : String).length = 4 := by decide
    omega
  refine ⟨rfl, ?_, ?_, rfl, rfl, ?_⟩
  · simp [save_json_ops_db]
    exact htmp
  · intro s
    simp [save_json_ops_db]
    intro hs hc
    exact hbk hc.symm
  · simp [save_json_ops_vps]
    exact htmp2

/-- C7: while the cloud link is down, forward_to_vps enqueues the
(topic, payload) pair into the bounded FIFO buffer — appending when there is
room, discarding the oldest entry when the buffer is full — and publishes
nothing; the buffer never exceeds its bound; flush_buffer publishes exactly
the buffered messages, in enqueue order, each payload carrying _flushed=true,
and empties the buffer so that no buffered message is published twice. -/
theorem forward_and_flush_buffer_props (topicFor : String → String → String)
    (st : GatewayLink) (device_id msg_type data : String) (now : Int) :
    (st.vps_connected = false → st.buffer.length < st.buffer_max_size →
      (forward_to_vps topicFor st device_id msg_type data now).buffer
          = st.buffer ++ [(topicFor msg_type device_id,
              { gateway_id := "Gateway1", device_id := device_id, data := data
                timestamp := now, flushed := false })]
        ∧ (forward_to_vps topicFor st device_id msg_type data now).published = st.published)
    ∧ (st.vps_connected = false → st.buffer.length = st.buffer_max_size →
        0 < st.buffer_max_size →
      (forward_to_vps topicFor st device_id msg_type data now).buffer
          = st.buffer.tail ++ [(topicFor msg_type device_id,
              { gateway_id := "Gateway1", device_id := device_id, data := data
                timestamp := now, flushed := false })])
    ∧ (st.buffer.length ≤ st.buffer_max_size →
      (forward_to_vps topicFor st device_id msg_type data now).buffer.length
        ≤ st.buffer_max_size)
    ∧ (flush_buffer st).published
        = st.published ++ st.buffer.map (fun m => (m.1, { m.2 with flushed := true }))
    ∧ (flush_buffer st).buffer = []
    ∧ (flush_buffer st).published.length = st.published.length + st.buffer.length := by
  refine ⟨?_, ?_, ?_, ?_, rfl, ?_⟩
  · intro hconn hroom
    unfold forward_to_vps
    rw [hconn]
    simp only [Bool.false_eq_true, if_false]
    exact ⟨dequeAppend_of_lt _ _ _ hroom, trivial⟩
  · intro hconn hfull hpos
    unfold forward_to_vps
    rw [hconn]
    simp only [Bool.false_eq_true, if_false]
    exact dequeAppend_of_full _ _ _ hfull hpos
  · intro hlen
    unfold forward_to_vps
    by_cases hconn : st.vps_connected
    · simp [hconn, hlen]
    · simp only [hconn, Bool.false_eq_true, if_false]
      rw [dequeAppend_length]
      omega
  · unfold flush_buffer
    rw [flushLoop_eq_map]
  · unfold flush_buffer
    simp [flushLoop_eq_map]

theorem forward_and_flush_buffer_witness :
    ((false = false ∧ (0 : Nat) < 2)
    ∧ (forward_to_vps (fun m d => m ++ "/" ++ d)
        { vps_connected := false, buffer_max_size := 2, buffer := [], published := [] }
        "temp_01" "telemetry" "d0" 5).buffer
      = [("telemetry/temp_01",
          { gateway_id := "Gateway1", device_id := "temp_01", data := "d0"
            timestamp := 5, flushed := false })]) := by
  refine ⟨⟨rfl, by decide⟩, ?_⟩
  have h := (forward_and_flush_buffer_props (fun m d => m ++ "/" ++ d)
    { vps_connected := false, buffer_max_size := 2, buffer := [], published := [] }
    "temp_01" "telemetry" "d0" 5).1 rfl (by decide)
  simpa using h.1

theorem runNonces_length (sm : SecurityManager) (l : List Int) :
    (runNonces sm l).1.length = l.length := by
  induction l generalizing sm with
  | nil => rfl
  | cons n rest ih => simp [runNonces, ih]

theorem runNonces_getD (sm : SecurityManager) (l : List Int)
    (hbound : sm.used_nonces.length + l.length ≤ sm.config.nonce_cache_size) :
    ∀ i, i < l.length →
      (runNonces sm l).1.getD i false
        = decide (l.getD i 0 ∉ sm.used_nonces ∧ l.getD i 0 ∉ l.take i) := by
  induction l generalizing sm with
  | nil =>
    intro i hi
    simp at hi
  | cons n rest ih =>
    intro i hi
    have hlen : sm.used_nonces.length < sm.config.nonce_cache_size := by
      simp at hbound
      omega
    rcases i with - | j
    · simp [runNonces, validate_nonce_fst]
    · have hj : j < rest.length := by simpa using hi
      by_cases hmem : n ∈ sm.used_nonces
      · have hst : (validate_nonce n sm).2 = sm := by
          unfold validate_nonce
          rw [if_pos hmem]
        have hb2 : (validate_nonce n sm).2.used_nonces.length + rest.length
            ≤ (validate_nonce n sm).2.config.nonce_cache_size := by
          rw [hst]
          simp at hbound
          omega
        have ihj := ih (validate_nonce n sm).2 hb2 j hj
        rw [hst] at ihj
        have hres : (runNonces sm (n :: rest)).1.getD (j + 1) false
            = (runNonces (validate_nonce n sm).2 rest).1.getD j false := by
          simp [runNonces]
        rw [hres, hst, ihj]
        simp only [List.getD_cons_succ, List.take_succ_cons, decide_eq_decide]
        constructor
        · rintro ⟨h1, h2⟩
          refine ⟨h1, ?_⟩
          intro hc
          rcases List.mem_cons.mp hc with rfl | hc2
          · exact h1 hmem
          · exact h2 hc2
        · rintro ⟨h1, h2⟩
          exact ⟨h1, fun hc => h2 (List.mem_cons_of_mem _ hc)⟩
      · have hst : (validate_nonce n sm).2.used_nonces = sm.used_nonces ++ [n] := by
          unfold validate_nonce
          rw [if_neg hmem]
          exact dequeAppend_of_lt _ _ _ hlen
        have hcfg : (validate_nonce n sm).2.config = sm.config :=
          validate_nonce_preserves_config n sm
        have hb2 : (validate_nonce n sm).2.used_nonces.length + rest.length
            ≤ (validate_nonce n sm).2.config.nonce_cache_size := by
          rw [hst, hcfg]
          simp at hbound ⊢
          omega
        have ihj := ih (validate_nonce n sm).2 hb2 j hj
        rw [hst] at ihj
        have hres : (runNonces sm (n :: rest)).1.getD (j + 1) false
            = (runNonces (validate_nonce n sm).2 rest).1.getD j false := by
          simp [runNonces]
        rw [hres, ihj]
        simp only [List.getD_cons_succ, List.take_succ_cons, decide_eq_decide,
          List.mem_append, List.mem_singleton]
        constructor
        · rintro ⟨h1, h2⟩
          refine ⟨fun hc => h1 (Or.inl hc), ?_⟩
          intro hc
          rcases List.mem_cons.mp hc with rfl | hc2
          · exact h1 (Or.inr rfl)
          · exact h2 hc2
        · rintro ⟨h1, h2⟩
          constructor
          · rintro (hc | rfl)
            · exact h1 hc
            · exact h2 (List.mem_cons_self _ _)
          · intro hc
            exact h2 (List.mem_cons_of_mem _ hc)

/-- C3: validate_nonce returns true exactly when the nonce is not in the
cache (so a value returns true once and false on every repeat until it is
evicted, and true again after eviction); a true return inserts the nonce;
when the cache is full the oldest entry is evicted FIFO; and over a whole
call sequence that cannot overflow the cache, the result of the i-th call is
true exactly when its nonce is new to the cache and to the earlier calls. -/
theorem validate_nonce_once_per_distinct (sm : SecurityManager) (n : Int)
    (l : List Int) (i : Nat) :
    ((validate_nonce n sm).1 = decide (n ∉ sm.used_nonces))
    ∧ ((validate_nonce n sm).1 = true → 0 < sm.config.nonce_cache_size →
        n ∈ (validate_nonce n sm).2.used_nonces)
    ∧ (n ∉ sm.used_nonces → sm.used_nonces.length = sm.config.nonce_cache_size →
        0 < sm.config.nonce_cache_size →
        (validate_nonce n sm).2.used_nonces = sm.used_nonces.tail ++ [n])
    ∧ (sm.used_nonces.length + l.length ≤ sm.config.nonce_cache_size →
        i < l.length →
        (runNonces sm l).1.getD i false
          = decide (l.getD i 0 ∉ sm.used_nonces ∧ l.getD i 0 ∉ l.take i)) := by
  refine ⟨validate_nonce_fst n sm, ?_, ?_, ?_⟩
  · intro htrue hsize
    have hfresh : n ∉ sm.used_nonces := by
      rw [validate_nonce_fst] at htrue
      exact of_decide_eq_true htrue
    exact validate_nonce_mem n sm hfresh hsize
  · intro hfresh hfull hsize
    unfold validate_nonce
    rw [if_neg hfresh]
    exact dequeAppend_of_full _ _ _ hfull hsize
  · intro hbound hi
    exact runNonces_getD sm l hbound i hi

theorem validate_nonce_once_per_distinct_witness :
    (validate_nonce 9
        { config := { max_failed_attempts := 5, lockout_duration_seconds := 300
                      timestamp_tolerance_seconds := 300, nonce_cache_size := 2 }
          failed_attempts := [], lockout_until := [], used_nonces := [3, 4] }).2.used_nonces
      = [4, 9]
    ∧ (runNonces
        { config := { max_failed_attempts := 5, lockout_duration_seconds := 300
                      timestamp_tolerance_seconds := 300, nonce_cache_size := 5 }
          failed_attempts := [], lockout_until := [], used_nonces := [] }
        [5, 6, 5]).1.getD 2 false
      = decide (([5, 6, 5].getD 2 0 : Int)
            ∉ ({ config := { max_failed_attempts := 5, lockout_duration_seconds := 300
                             timestamp_tolerance_seconds := 300, nonce_cache_size := 5 }
                 failed_attempts := [], lockout_until := []
                 used_nonces := [] : SecurityManager }).used_nonces
          ∧ ([5, 6, 5].getD 2 0 : Int) ∉ [5, 6, 5].take 2) := by
  constructor
  · exact (validate_nonce_once_per_distinct
      { config := { max_failed_attempts := 5, lockout_duration_seconds := 300
                    timestamp_tolerance_seconds := 300, nonce_cache_size := 2 }
        failed_attempts := [], lockout_until := [], used_nonces := [3, 4] }
      9 [] 0).2.2.1 (by decide) (by decide) (by decide)
  · exact (validate_nonce_once_per_distinct
      { config := { max_failed_attempts := 5, lockout_duration_seconds := 300
                    timestamp_tolerance_seconds := 300, nonce_cache_size := 5 }
        failed_attempts := [], lockout_until := [], used_nonces := [] }
      0 [5, 6, 5] 2).2.2.2 (by decide) (by decide)

theorem setKey_setKey {β : Type} (k : String) (v w : β) (m : List (String × β)) :
    setKey k v (setKey k w m) = setKey k v m := by
  induction m with
  | nil => simp [setKey]
  | cons p rest ih =>
    obtain ⟨k', v'⟩ := p
    by_cases hk : k' = k
    · simp [setKey, hk]
    · simp [setKey, hk, ih]

theorem record_failed_attempt_no_trigger (now : Int) (dev : String) (sm : SecurityManager)
    (c : Nat) (hc : (getKey dev sm.failed_attempts).getD 0 = c)
    (hlt : c + 1 < sm.config.max_failed_attempts) :
    record_failed_attempt now dev sm
      = (false, { sm with failed_attempts := setKey dev (c + 1) sm.failed_attempts }) := by
  simp only [record_failed_attempt, hc]
  rw [if_neg (by omega)]

theorem record_failed_attempt_trigger (now : Int) (dev : String) (sm : SecurityManager)
    (c : Nat) (hc : (getKey dev sm.failed_attempts).getD 0 = c)
    (hge : sm.config.max_failed_attempts ≤ c + 1) :
    record_failed_attempt now dev sm
      = (true, { sm with
          failed_attempts := setKey dev (c + 1) sm.failed_attempts
          lockout_until := setKey dev (now + sm.config.lockout_duration_seconds)
            sm.lockout_until }) := by
  simp only [record_failed_attempt, hc]
  rw [if_pos (by omega)]

theorem is_locked_out_fst_some (t : Int) (dev : String) (sm : SecurityManager) (tl : Int)
    (h : getKey dev sm.lockout_until = some tl) :
    (is_locked_out t dev sm).1 = decide (t < tl) := by
  unfold is_locked_out
  rw [h]
  by_cases ht : t < tl <;> simp [ht]

theorem is_locked_out_fst_none (t : Int) (dev : String) (sm : SecurityManager)
    (h : getKey dev sm.lockout_until = none) :
    (is_locked_out t dev sm).1 = false := by
  unfold is_locked_out
  rw [h]

/-- C4: from a clean state and with the default configuration
(max_failed_attempts = 5, lockout_duration = 300 s), five consecutive
record_failed_attempt calls for a device with no intervening record_success
return false on the first four calls and true (lockout triggered) on the
fifth; afterwards is_locked_out is true exactly for times strictly inside
the 300-second window starting at the fifth attempt and false afterwards;
a single record_success clears both the counter and the lockout at once. -/
theorem lockout_after_five_failures (sm0 : SecurityManager) (dev : String)
    (t1 t2 t3 t4 t5 t : Int)
    (hcfg : sm0.config = defaultSecurityConfig)
    (hfa : getKey dev sm0.failed_attempts = none)
    (hlu : getKey dev sm0.lockout_until = none) :
    let r1 := record_failed_attempt t1 dev sm0
    let r2 := record_failed_attempt t2 dev r1.2
    let r3 := record_failed_attempt t3 dev r2.2
    let r4 := record_failed_attempt t4 dev r3.2
    let r5 := record_failed_attempt t5 dev r4.2
    r1.1 = false ∧ r2.1 = false ∧ r3.1 = false ∧ r4.1 = false ∧ r5.1 = true
    ∧ (is_locked_out t dev r5.2).1 = decide (t < t5 + 300)
    ∧ (is_locked_out t dev (record_success dev r5.2)).1 = false
    ∧ getKey dev (record_success dev r5.2).failed_attempts = none := by
  intro r1 r2 r3 r4 r5
  have e1 : r1 = (false, { sm0 with failed_attempts := setKey dev 1 sm0.failed_attempts }) :=
    record_failed_attempt_no_trigger t1 dev sm0 0 (by rw [hfa]; rfl)
      (by rw [hcfg]; decide)
  have e2 : r2 = (false, { sm0 with failed_attempts := setKey dev 2 sm0.failed_attempts }) := by
    show record_failed_attempt t2 dev r1.2 = _
    rw [e1]
    rw [record_failed_attempt_no_trigger t2 dev _ 1 (by simp [getKey_setKey_self])
      (by rw [show ({ sm0 with failed_attempts := setKey dev 1 sm0.failed_attempts } :
        SecurityManager).config = sm0.config from rfl, hcfg]; decide)]
    simp [setKey_setKey]
  have e3 : r3 = (false, { sm0 with failed_attempts := setKey dev 3 sm0.failed_attempts }) := by
    show record_failed_attempt t3 dev r2.2 = _
    rw [e2]
    rw [record_failed_attempt_no_trigger t3 dev _ 2 (by simp [getKey_setKey_self])
      (by rw [show ({ sm0 with failed_attempts := setKey dev 2 sm0.failed_attempts } :
        SecurityManager).config = sm0.config from rfl, hcfg]; decide)]
    simp [setKey_setKey]
  have e4 : r4 = (false, { sm0 with failed_attempts := setKey dev 4 sm0.failed_attempts }) := by
    show record_failed_attempt t4 dev r3.2 = _
    rw [e3]
    rw [record_failed_attempt_no_trigger t4 dev _ 3 (by simp [getKey_setKey_self])
      (by rw [show ({ sm0 with failed_attempts := setKey dev 3 sm0.failed_attempts } :
        SecurityManager).config = sm0.config from rfl, hcfg]; decide)]
    simp [setKey_setKey]
  have e5 : r5 = (true, { sm0 with
      failed_attempts := setKey dev 5 sm0.failed_attempts
      lockout_until := setKey dev (t5 + 300) sm0.lockout_until }) := by
    show record_failed_attempt t5 dev r4.2 = _
    rw [e4]
    rw [record_failed_attempt_trigger t5 dev _ 4 (by simp [getKey_setKey_self])
      (by rw [show ({ sm0 with failed_attempts := setKey dev 4 sm0.failed_attempts } :
        SecurityManager).config = sm0.config from rfl, hcfg]; decide)]
    rw [show ({ sm0 with failed_attempts := setKey dev 4 sm0.failed_attempts } :
      SecurityManager).config = sm0.config from rfl, hcfg]
    simp [setKey_setKey, defaultSecurityConfig]
  refine ⟨by rw [e1], by rw [e2], by rw [e3], by rw [e4], by rw [e5], ?_, ?_, ?_⟩
  · rw [e5]
    exact is_locked_out_fst_some t dev _ (t5 + 300) (getKey_setKey_self dev _ _)
  · rw [e5]
    apply is_locked_out_fst_none
    show getKey dev (delKey dev (setKey dev (t5 + 300) sm0.lockout_until)) = none
    rw [setKey_of_getKey_none dev _ _ hlu, delKey_append_self dev _ _ hlu]
    exact hlu
  · rw [e5]
    show getKey dev (delKey dev (setKey dev 5 sm0.failed_attempts)) = none
    rw [setKey_of_getKey_none dev _ _ hfa, delKey_append_self dev _ _ hfa]
    exact hfa

theorem lockout_after_five_failures_witness :
    let r1 := record_failed_attempt 10 "gate_01" (mkSecurityManager defaultSecurityConfig)
    let r2 := record_failed_attempt 11 "gate_01" r1.2
    let r3 := record_failed_attempt 12 "gate_01" r2.2
    let r4 := record_failed_attempt 13 "gate_01" r3.2
    let r5 := record_failed_attempt 14 "gate_01" r4.2
    r1.1 = false ∧ r2.1 = false ∧ r3.1 = false ∧ r4.1 = false ∧ r5.1 = true
    ∧ (is_locked_out 100 "gate_01" r5.2).1 = decide ((100 : Int) < 14 + 300)
    ∧ (is_locked_out 100 "gate_01" (record_success "gate_01" r5.2)).1 = false
    ∧ getKey "gate_01" (record_success "gate_01" r5.2).failed_attempts = none :=
  lockout_after_five_failures (mkSecurityManager defaultSecurityConfig) "gate_01"
    10 11 12 13 14 100 rfl rfl rfl

/-- C1: handle_request is exactly the claimed first-failing-check cascade —
lockout, presence of body and hmac, HMAC verification, JSON parse, timestamp,
nonce, in that order, each failure answering LOCK with its respective reason
(locked_out, invalid_format, invalid_signature, invalid_json,
invalid_timestamp, replay_attack) — and whenever the request ends in a LOCK
response the nonce cache is left untouched, so no nonce is consumed before
the pipeline reaches the dispatch point. -/
theorem handle_request_first_failing_check
    (hmacOk : String → String → Bool) (parse : String → Option RequestBody)
    (now : Int) (dev : String) (p : RequestPayload) (sm : SecurityManager) :
    ((handle_request hmacOk parse now dev p sm).1
      = match specFirstFailure (is_locked_out now dev sm).1 (checkFmtBad p)
          (checkHmacBad hmacOk p) (checkJsonBad parse p)
          (checkTsBad parse now p (is_locked_out now dev sm).2)
          (checkNonceBad parse p (is_locked_out now dev sm).2) with
        | some r => .lockResp r
        | none => passOutcome parse p)
    ∧ (∀ r, (handle_request hmacOk parse now dev p sm).1 = .lockResp r →
        (handle_request hmacOk parse now dev p sm).2.used_nonces = sm.used_nonces) := by
  by_cases hlk : (is_locked_out now dev sm).1
  · simp [handle_request, specFirstFailure, hlk, is_locked_out_preserves_nonces]
  · rcases hhm : p.hmac with - | hm
    · simp [handle_request, specFirstFailure, checkFmtBad, hhm, hlk,
        record_failed_attempt_preserves_nonces, is_locked_out_preserves_nonces]
    · rcases hbd : p.body with - | bd
      · simp [handle_request, specFirstFailure, checkFmtBad, hhm, hbd, hlk,
          record_failed_attempt_preserves_nonces, is_locked_out_preserves_nonces]
      · by_cases hv : hmacOk bd hm
        · rcases hp : parse bd with - | body
          · simp [handle_request, specFirstFailure, checkFmtBad, checkHmacBad,
              checkJsonBad, hhm, hbd, hv, hp, hlk,
              record_failed_attempt_preserves_nonces, is_locked_out_preserves_nonces]
          · by_cases hts : validate_timestamp now (body.ts.getD 0) (is_locked_out now dev sm).2
            · by_cases hn : (validate_nonce (body.nonce.getD 0) (is_locked_out now dev sm).2).1
              · by_cases hcmd : body.cmd = some "unlock_request"
                · simp [handle_request, specFirstFailure, checkFmtBad, checkHmacBad,
                    checkJsonBad, checkTsBad, checkNonceBad, passOutcome,
                    hhm, hbd, hv, hp, hts, hn, hcmd, hlk]
                · simp [handle_request, specFirstFailure, checkFmtBad, checkHmacBad,
                    checkJsonBad, checkTsBad, checkNonceBad, passOutcome,
                    hhm, hbd, hv, hp, hts, hn, hcmd, hlk]
              · simp [handle_request, specFirstFailure, checkFmtBad, checkHmacBad,
                  checkJsonBad, checkTsBad, checkNonceBad, hhm, hbd, hv, hp, hts, hn, hlk,
                  record_failed_attempt_preserves_nonces, is_locked_out_preserves_nonces]
            · simp [handle_request, specFirstFailure, checkFmtBad, checkHmacBad,
                checkJsonBad, checkTsBad, hhm, hbd, hv, hp, hts, hlk,
                record_failed_attempt_preserves_nonces, is_locked_out_preserves_nonces]
        · simp [handle_request, specFirstFailure, checkFmtBad, checkHmacBad,
            hhm, hbd, hv, hlk,
            record_failed_attempt_preserves_nonces, is_locked_out_preserves_nonces]

theorem handle_request_first_failing_check_witness :
    (handle_request (fun _ _ => false) (fun _ => none) 0 "passkey_01"
        { body := some "b", hmac := some "h" }
        (mkSecurityManager defaultSecurityConfig)).2.used_nonces
      = (mkSecurityManager defaultSecurityConfig).used_nonces :=
  (handle_request_first_failing_check (fun _ _ => false) (fun _ => none) 0 "passkey_01"
      { body := some "b", hmac := some "h" }
      (mkSecurityManager defaultSecurityConfig)).2
    "invalid_signature" (by decide)

/-- C9: a request whose parsed body has no 'nonce' field runs the nonce check
on the default value 0 (body.get('nonce', 0)): when 0 is not in the cache the
request passes every check — it is never answered with a LOCK response — and
0 is inserted into the cache; once 0 is cached, every further nonce-less
request is denied with reason replay_attack even though nothing was replayed. -/
theorem nonceless_request_defaults_nonce_zero
    (hmacOk : String → String → Bool) (parse : String → Option RequestBody)
    (now : Int) (dev : String) (p : RequestPayload) (sm : SecurityManager)
    (hm bd : String) (body : RequestBody)
    (hhm : p.hmac = some hm) (hbd : p.body = some bd)
    (hv : hmacOk bd hm = true) (hp : parse bd = some body)
    (hnon : body.nonce = none)
    (hlk : (is_locked_out now dev sm).1 = false)
    (hts : validate_timestamp now (body.ts.getD 0) (is_locked_out now dev sm).2 = true)
    (hsize : 0 < sm.config.nonce_cache_size) :
    ((0 : Int) ∉ sm.used_nonces →
      (∀ r, (handle_request hmacOk parse now dev p sm).1 ≠ .lockResp r)
      ∧ (0 : Int) ∈ (handle_request hmacOk parse now dev p sm).2.used_nonces)
    ∧ ((0 : Int) ∈ sm.used_nonces →
      (handle_request hmacOk parse now dev p sm).1 = .lockResp "replay_attack") := by
  have hnu : (is_locked_out now dev sm).2.used_nonces = sm.used_nonces :=
    is_locked_out_preserves_nonces now dev sm
  have hnc : (is_locked_out now dev sm).2.config = sm.config :=
    is_locked_out_preserves_config now dev sm
  constructor
  · intro hfresh
    have hfresh2 : (0 : Int) ∉ (is_locked_out now dev sm).2.used_nonces := by
      rw [hnu]; exact hfresh
    have hn1 : (validate_nonce ((0 : Int)) (is_locked_out now dev sm).2).1 = true := by
      rw [validate_nonce_fst]
      exact decide_eq_true hfresh2
    have hmem : (0 : Int) ∈ (validate_nonce 0 (is_locked_out now dev sm).2).2.used_nonces :=
      validate_nonce_mem 0 _ hfresh2 (by rw [hnc]; exact hsize)
    constructor
    · intro r
      simp [handle_request, hlk, hhm, hbd, hv, hp, hnon, hts, hn1]
      by_cases hcmd : body.cmd = some "unlock_request" <;> simp [hcmd]
    · simp [handle_request, hlk, hhm, hbd, hv, hp, hnon, hts, hn1]
      by_cases hcmd : body.cmd = some "unlock_request" <;> simp [hcmd, hmem]
  · intro hrepl
    have hrepl2 : (0 : Int) ∈ (is_locked_out now dev sm).2.used_nonces := by
      rw [hnu]; exact hrepl
    have hn0 : (validate_nonce ((0 : Int)) (is_locked_out now dev sm).2).1 = false := by
      rw [validate_nonce_fst]
      simpa using hrepl2
    simp [handle_request, hlk, hhm, hbd, hv, hp, hnon, hts, hn0]

theorem nonceless_request_defaults_nonce_zero_witness :
    (0 : Int) ∈ (handle_request (fun _ _ => true)
        (fun _ => some { cmd := some "unlock_request", pw := some "x"
                         ts := some 0, nonce := none })
        0 "passkey_01" { body := some "b", hmac := some "h" }
        (mkSecurityManager defaultSecurityConfig)).2.used_nonces :=
  ((nonceless_request_defaults_nonce_zero (fun _ _ => true)
      (fun _ => some { cmd := some "unlock_request", pw := some "x"
                       ts := some 0, nonce := none })
      0 "passkey_01" { body := some "b", hmac := some "h" }
      (mkSecurityManager defaultSecurityConfig) "h" "b"
      { cmd := some "unlock_request", pw := some "x", ts := some 0, nonce := none }
      rfl rfl rfl rfl rfl rfl (by decide) (by decide)).1 (by decide)).2

theorem check_access_rules_skip (q : String × AccessRule)
    (rest : List (String × AccessRule)) (t : Nat) (m : String) (u : Option String)
    (hq : ruleSkipped t q) :
    check_access_rules (q :: rest) t m u = check_access_rules rest t m u := by
  obtain ⟨qn, qr⟩ := q
  rcases hq with hdis | ⟨s, e, hs, he, hr⟩
  · simp only [Prod.snd] at hdis
    simp [check_access_rules, hdis]
  · simp only [Prod.snd] at hs he
    by_cases hen : qr.enabled
    · simp [check_access_rules, hen, hs, he, hr]
    · simp [check_access_rules, hen]

theorem check_access_rules_skip_front (pre rest : List (String × AccessRule))
    (t : Nat) (m : String) (u : Option String)
    (hpre : ∀ q ∈ pre, ruleSkipped t q) :
    check_access_rules (pre ++ rest) t m u = check_access_rules rest t m u := by
  induction pre with
  | nil => rfl
  | cons q qs ih =>
    rw [List.cons_append, check_access_rules_skip q _ t m u (hpre q (by simp))]
    exact ih (fun q' hq' => hpre q' (by simp [hq']))

/-- C10: check_access_rules is decided entirely by the first enabled rule, in
dict order, whose (possibly midnight-wrapping) window contains the current
time — that rule denies with method_not_allowed_name or user_restricted_name
or allows, and the rules after it are never consulted; when every rule is
disabled or out of window the result is allow, and an unparseable time field
on the first otherwise-applicable enabled rule (the Python exception path)
also yields allow with no reason. -/
theorem check_access_rules_first_match (pre post rules : List (String × AccessRule))
    (rule_name : String) (r : AccessRule) (t : Nat) (method : String)
    (user : Option String) :
    ((∀ q ∈ pre, ruleSkipped t q) → r.enabled = true →
      ∀ s e, r.start_time = some s → r.end_time = some e → ruleInRange s e t = true →
      check_access_rules (pre ++ (rule_name, r) :: post) t method user
        = (if ¬ r.allowed_methods.contains method then
             (false, some ("method_not_allowed_" ++ rule_name))
           else if userRestricted user r.restricted_users then
             (false, some ("user_restricted_" ++ rule_name))
           else (true, none)))
    ∧ ((∀ q ∈ rules, ruleSkipped t q) →
        check_access_rules rules t method user = (true, none))
    ∧ ((∀ q ∈ pre, ruleSkipped t q) → r.enabled = true →
        (r.start_time = none ∨ r.end_time = none) →
        check_access_rules (pre ++ (rule_name, r) :: post) t method user = (true, none)) := by
  refine ⟨?_, ?_, ?_⟩
  · intro hpre hen s e hs he hrange
    rw [check_access_rules_skip_front pre _ t method user hpre]
    simp [check_access_rules, hen, hs, he, hrange]
  · intro hall
    induction rules with
    | nil => rfl
    | cons q qs ih =>
      rw [check_access_rules_skip q _ t method user (hall q (by simp))]
      exact ih (fun q' hq' => hall q' (by simp [hq']))
  · intro hpre hen hnone
    rw [check_access_rules_skip_front pre _ t method user hpre]
    rcases hnone with hs | he
    · simp [check_access_rules, hen, hs]
    · rcases hstart : r.start_time with - | s
      · simp [check_access_rules, hen, hstart]
      · simp [check_access_rules, hen, hstart, he]

theorem check_access_rules_first_match_witness :
    check_access_rules
      [("night", { enabled := true, start_time := some 1320, end_time := some 360
                   allowed_methods := ["rfid"], restricted_users := [] })]
      100 "passkey" none
      = (false, some "method_not_allowed_night") := by
  have h := (check_access_rules_first_match [] []
    [] "night"
    { enabled := true, start_time := some 1320, end_time := some 360
      allowed_methods := ["rfid"], restricted_users := [] }
    100 "passkey" none).1 (by simp) rfl 1320 360 rfl rfl (by decide)
  rw [List.nil_append] at h
  rw [h]
  decide

theorem check_offline_devices_logs_mono (now devto : Int) (st : ServerState)
    (log : SystemLog) (h : log ∈ st.system_logs) :
    log ∈ (check_offline_devices now devto st).system_logs := by
  unfold check_offline_devices
  by_cases he : (st.devices.filter (deviceStale (now - devto))).isEmpty <;> simp [he, h]

theorem check_offline_devices_devices_eq (now devto : Int) (st : ServerState) :
    (check_offline_devices now devto st).devices
      = st.devices.map (fun d =>
          if deviceStale (now - devto) d then { d with status := "offline" } else d) := by
  unfold check_offline_devices
  by_cases he : (st.devices.filter (deviceStale (now - devto))).isEmpty <;> simp [he]

theorem check_offline_gateways_cascade_eq (now gwto : Int) (st : ServerState)
    (hne : (st.gateways.filter (gatewayStale (now - gwto))).isEmpty = false) :
    (check_offline_gateways now gwto st).devices
      = st.devices.map (fun d =>
          if cascadeHit ((st.gateways.filter (gatewayStale (now - gwto))).map
              (fun g => g.gateway_id)) d
          then { d with status := "offline" } else d)
    ∧ (check_offline_gateways now gwto st).system_logs
      = st.system_logs
        ++ (st.gateways.filter (gatewayStale (now - gwto))).map (fun g =>
            { log_type := "system_event", event := "gateway_offline"
              gateway_id := some g.gateway_id, device_id := none, reason := none
              detection_method := "periodic_check" })
        ++ (st.devices.filter (cascadeHit
              ((st.gateways.filter (gatewayStale (now - gwto))).map
                (fun g => g.gateway_id)))).map (fun d =>
            { log_type := "device_event", event := "device_offline"
              gateway_id := none, device_id := some d.device_id
              reason := some "gateway_offline", detection_method := "cascade" }) := by
  unfold check_offline_gateways
  simp [hne]

/-- C6: in a single detector tick (gateway sweep with its cascade first, then
the standalone device sweep), every device of a gateway that the gateway
sweep just transitioned from online to offline and whose own status was
'online' ends the tick with status 'offline', and a device_offline system log
with metadata reason 'gateway_offline' is appended for it in the same tick. -/
theorem gateway_offline_cascades_to_devices (st : ServerState)
    (now gwto devto : Int) (g : GatewayRow) (d : DeviceRow)
    (hg : g ∈ st.gateways) (hstale : gatewayStale (now - gwto) g = true)
    (hd : d ∈ st.devices) (hgid : d.gateway_id = g.gateway_id)
    (hon : d.status = "online") :
    (∃ d' ∈ (detection_tick now gwto devto st).devices,
        d'.device_id = d.device_id ∧ d'.status = "offline")
    ∧ (∃ log ∈ (detection_tick now gwto devto st).system_logs,
        log.event = "device_offline" ∧ log.device_id = some d.device_id
        ∧ log.reason = some "gateway_offline") := by
  have hmemf : g ∈ st.gateways.filter (gatewayStale (now - gwto)) :=
    List.mem_filter.mpr ⟨hg, hstale⟩
  have hne : (st.gateways.filter (gatewayStale (now - gwto))).isEmpty = false := by
    rcases hflt : st.gateways.filter (gatewayStale (now - gwto)) with - | ⟨a, rest⟩
    · rw [hflt] at hmemf
      simp at hmemf
    · rfl
  obtain ⟨hdev, hlogs⟩ := check_offline_gateways_cascade_eq now gwto st hne
  have hids : d.gateway_id ∈ (st.gateways.filter (gatewayStale (now - gwto))).map
      (fun g' => g'.gateway_id) := by
    rw [hgid]
    exact List.mem_map_of_mem _ hmemf
  have hhit : cascadeHit ((st.gateways.filter (gatewayStale (now - gwto))).map
      (fun g' => g'.gateway_id)) d = true := by
    unfold cascadeHit
    rw [hon]
    simp only [Bool.and_eq_true]
    constructor
    · simpa using hids
    · rfl
  have hds : deviceStale (now - devto) { d with status := "offline" } = false := rfl
  constructor
  · refine ⟨{ d with status := "offline" }, ?_, rfl, rfl⟩
    unfold detection_tick
    rw [check_offline_devices_devices_eq, hdev, List.map_map]
    have hfd : ((fun d' =>
        if deviceStale (now - devto) d' then { d' with status := "offline" } else d') ∘
        (fun d' =>
          if cascadeHit ((st.gateways.filter (gatewayStale (now - gwto))).map
              (fun g' => g'.gateway_id)) d'
          then { d' with status := "offline" } else d')) d
        = { d with status := "offline" } := by
      simp only [Function.comp_apply]
      rw [if_pos hhit, if_neg (by simp [hds])]
    rw [← hfd]
    exact List.mem_map_of_mem _ hd
  · refine ⟨{ log_type := "device_event", event := "device_offline",
              gateway_id := none, device_id := some d.device_id,
              reason := some "gateway_offline", detection_method := "cascade" },
      ?_, rfl, rfl, rfl⟩
    unfold detection_tick
    apply check_offline_devices_logs_mono
    rw [hlogs]
    apply List.mem_append_right
    exact List.mem_map_of_mem _ (List.mem_filter.mpr ⟨hd, hhit⟩)

theorem gateway_offline_cascades_to_devices_witness :
    (∃ d' ∈ (detection_tick 1000 90 90
        { gateways := [{ gateway_id := "gw1", user_id := "u1", gw_name := "Home",
                         status := "online", last_seen := some 0 }],
          devices := [{ device_id := "dev1", user_id := "u1", device_type := "temp",
                        gateway_id := "gw1", status := "online", last_seen := some 0 }],
          system_logs := [] }).devices,
      d'.device_id = "dev1" ∧ d'.status = "offline")
    ∧ (∃ log ∈ (detection_tick 1000 90 90
        { gateways := [{ gateway_id := "gw1", user_id := "u1", gw_name := "Home",
                         status := "online", last_seen := some 0 }],
          devices := [{ device_id := "dev1", user_id := "u1", device_type := "temp",
                        gateway_id := "gw1", status := "online", last_seen := some 0 }],
          system_logs := [] }).system_logs,
      log.event = "device_offline" ∧ log.device_id = some "dev1"
        ∧ log.reason = some "gateway_offline") :=
  gateway_offline_cascades_to_devices
    { gateways := [{ gateway_id := "gw1", user_id := "u1", gw_name := "Home",
                     status := "online", last_seen := some 0 }],
      devices := [{ device_id := "dev1", user_id := "u1", device_type := "temp",
                    gateway_id := "gw1", status := "online", last_seen := some 0 }],
      system_logs := [] }
    1000 90 90
    { gateway_id := "gw1", user_id := "u1", gw_name := "Home",
      status := "online", last_seen := some 0 }
    { device_id := "dev1", user_id := "u1", device_type := "temp",
      gateway_id := "gw1", status := "online", last_seen := some 0 }
    (by simp) (by decide) (by simp) rfl rfl

theorem authenticate_active_only_witness :
    authenticate_rfid [("cardA", { active := true, expires_at := none })] "cardA" = true :=
  (authenticate_active_only [("cardA", { active := true, expires_at := none })] "cardA"
      [] "").1.mpr ⟨{ active := true, expires_at := none }, rfl, rfl⟩

theorem save_json_split_behaviour_witness :
    save_json_ops_db "devices.json"
      = [FsOp.write ("devices.json" ++ ".tmp"),
         FsOp.rename ("devices.json" ++ ".tmp") "devices.json"] :=
  (save_json_split_behaviour "devices.json").1
